import Mathlib

/-!
Shallow embedding of the RISC-V emulator core (`src/vm.rs`) of the
Lewis-Seiden/RISC-V-Emulator repository, together with theorems settling the
frozen claims about its specification.

Modelling conventions:
- Rust `u32` values are `Nat` (with explicit `% 2^32` where the code wraps);
  Rust `i32`/`i64` values are `Int`.
- A Rust panic (out-of-bounds `Vec` index, `Option::unwrap` on `None`,
  `panic!`, or a debug-profile arithmetic/shift overflow) is modelled as
  `none`; fallible operations therefore return `Option`.
- The `i64` program-counter arithmetic (`pc + delta`) is modelled as
  unbounded `Int` arithmetic: `i64` overflow is unreachable for any pc that
  can ever be fetched from a real memory (capacity bounded by `usize`).
-/

namespace RiscV

/-- Rust `transmute_to_signed` (vm.rs:219-221): reinterpret a `u32` bit
pattern as a two's-complement `i32`. -/
def transmute_to_signed (u : Nat) : Int :=
  if u < 2147483648 then (u : Int) else (u : Int) - 4294967296

/-- Rust `transmute_to_unsigned` (vm.rs:223-225): two's-complement `u32` bit
pattern of an `i32` value. -/
def transmute_to_unsigned (z : Int) : Nat :=
  (z % 4294967296).toNat

/-- Checked `u32` addition: Rust `a + b` panics on overflow in the debug
profile, modelled as `none`. -/
def u32add (a b : Nat) : Option Nat :=
  if a + b < 4294967296 then some (a + b) else none

/-- Checked `u32` subtraction: Rust `a - b` panics on underflow. -/
def u32sub (a b : Nat) : Option Nat :=
  if b ≤ a then some (a - b) else none

/-- Checked `i32` range assertion: Rust `i32` arithmetic panics when the
mathematical result leaves the `i32` range. -/
def i32chk (z : Int) : Option Int :=
  if -2147483648 ≤ z ∧ z < 2147483648 then some z else none

/-- Rust `u32 << n`: panics when the shift amount is ≥ 32; bits shifted out
of the 32-bit result are discarded. -/
def u32shl (a n : Nat) : Option Nat :=
  if n < 32 then some ((a <<< n) % 4294967296) else none

/-- Rust `u32 >> n`: panics when the shift amount is ≥ 32. -/
def u32shr (a n : Nat) : Option Nat :=
  if n < 32 then some (a >>> n) else none

/-- Rust `i32 >> n` (arithmetic right shift): panics when the shift amount
is ≥ 32. `Int.shiftRight` rounds toward negative infinity, matching the
hardware arithmetic shift. -/
def i32shr (z : Int) (n : Nat) : Option Int :=
  if n < 32 then some (z >>> n) else none

/-- Rust `i32 & i32`, computed on the two's-complement bit patterns. -/
def i32and (a b : Int) : Int :=
  transmute_to_signed (transmute_to_unsigned a &&& transmute_to_unsigned b)

/-- Rust `i32 ^ i32`, computed on the two's-complement bit patterns. -/
def i32xor (a b : Int) : Int :=
  transmute_to_signed (transmute_to_unsigned a ^^^ transmute_to_unsigned b)

/-- Rust `i32 | i32`, computed on the two's-complement bit patterns. -/
def i32or (a b : Int) : Int :=
  transmute_to_signed (transmute_to_unsigned a ||| transmute_to_unsigned b)

/-- Rust `u32::saturating_add_signed`: clamps the mathematical sum to the
`u32` range. -/
def satAddU32 (a : Nat) (z : Int) : Nat :=
  (min (max ((a : Int) + z) 0) 4294967295).toNat

/-- Rust `self.pc as u32`: an `i64` → `u32` `as`-cast wraps modulo `2^32`
(`%` on `Int` is Euclidean, so the result is the nonnegative residue). -/
def pcAsU32 (pc : Int) : Nat :=
  (pc % 4294967296).toNat

/-- Rust `self.pc as usize`: an `i64` → 64-bit `usize` `as`-cast wraps
modulo `2^64`. -/
def pcAsUsize (pc : Int) : Nat :=
  (pc % 18446744073709551616).toNat

/-- Rust `usize::wrapping_add_signed` applied to a `u32` register value cast
to `usize` and an `isize` offset (used by the load instructions). -/
def usizeWrapAddSigned (r : Nat) (z : Int) : Nat :=
  (((r : Int) + z) % 18446744073709551616).toNat

/-- Rust `u32::wrapping_add_signed` (used by the store instructions). -/
def u32WrapAddSigned (r : Nat) (z : Int) : Nat :=
  (((r : Int) + z) % 4294967296).toNat

/-- `SmallImmediate` (vm.rs:74-77): the raw 12-bit immediate field of an
I/S/B-format instruction, held as the `u32` the decoder produced. -/
structure SmallImmediate where
  val : Nat
deriving DecidableEq

/-- `BigImmediate` (vm.rs:78-82): the raw 20-bit immediate field of a
U/J-format instruction. -/
structure BigImmediate where
  val : Nat
deriving DecidableEq

/-- `SignExtend for SmallImmediate` (vm.rs:112-117). The Rust source tests
`self.val & 1 << 11 == 1`, which by Rust precedence is
`(self.val & (1 << 11)) == 1`; that conjunct is `0` or `2048`, never `1`,
so the `+ 0xFFFFF000` branch is unreachable (kept verbatim here). -/
def SmallImmediate.sign_extend (i : SmallImmediate) : Int :=
  if i.val &&& (1 <<< 11) = 1 then
    transmute_to_signed (i.val + 0xFFFFF000)
  else
    transmute_to_signed i.val

/-- `SignExtend for BigImmediate` (vm.rs:119-124): identical body to the
12-bit case, including the bit-11 (not bit-19) test. -/
def BigImmediate.sign_extend (i : BigImmediate) : Int :=
  if i.val &&& (1 <<< 11) = 1 then
    transmute_to_signed (i.val + 0xFFFFF000)
  else
    transmute_to_signed i.val

/-- R format (vm.rs:127-132). Register pointers are Rust `u8`. -/
structure R where
  rd : Nat
  rs1 : Nat
  rs2 : Nat
deriving DecidableEq

/-- I format (vm.rs:133-138). -/
structure I where
  rd : Nat
  rs1 : Nat
  imm : SmallImmediate
deriving DecidableEq

/-- S format (vm.rs:139-144). -/
structure S where
  imm : SmallImmediate
  rs1 : Nat
  rs2 : Nat
deriving DecidableEq

/-- U format (vm.rs:145-149). -/
structure U where
  rd : Nat
  imm : BigImmediate
deriving DecidableEq

/-- B format (vm.rs:150-156). -/
structure B where
  imm : SmallImmediate
  rs1 : Nat
  rs2 : Nat
deriving DecidableEq

/-- J format (vm.rs:157-161). -/
structure J where
  rd : Nat
  imm : BigImmediate
deriving DecidableEq

/-- `Instruction` (vm.rs:163-211). -/
inductive Instruction where
  | ADD (data : R)
  | SUB (data : R)
  | XOR (data : R)
  | OR (data : R)
  | AND (data : R)
  | SLL (data : R)
  | SRL (data : R)
  | SRA (data : R)
  | SLT (data : R)
  | SLTU (data : R)
  | ADDI (data : I)
  | XORI (data : I)
  | ORI (data : I)
  | ANDI (data : I)
  | SLLI (data : I)
  | SRLI (data : I)
  | SRAI (data : I)
  | SLTI (data : I)
  | SLTUI (data : I)
  | LB (data : I)
  | LH (data : I)
  | LW (data : I)
  | LBU (data : I)
  | LHU (data : I)
  | SB (data : S)
  | SH (data : S)
  | SW (data : S)
  | BEQ (data : B)
  | BNE (data : B)
  | BLT (data : B)
  | BGE (data : B)
  | BLTU (data : B)
  | BGEU (data : B)
  | JAL (data : J)
  | JALR (data : I)
  | LUI (data : U)
  | AUIPC (data : U)
  | ECALL (data : I)
  | EBREAK (data : I)
deriving DecidableEq

/-- `ArchState` (vm.rs:213-217): 31 backing register slots (x0 is handled in
the accessors), an `i64` program counter and a byte memory. -/
structure ArchState where
  regs : List Nat
  pc : Int
  mem : List Nat
deriving DecidableEq

/-- The fixed no-op every unrecognized word decodes to (vm.rs:230-236). -/
def nop : Instruction :=
  Instruction.ADDI ⟨0, 0, ⟨0⟩⟩

/-- `interpret_bytes` (vm.rs:227-384). Bit-for-bit translation, including:
`func3` is taken from bits 11..13 (`(bytes & (0b111 << 11)) >> 11`); the
match arms written `0000`, `1000`, `010`, ... in the Rust source are
decimal literals, reproduced here as their decimal values; the store and
branch immediates use Rust operator precedence, where `+` binds tighter
than `&`; `as u8` casts are `% 256`. -/
def interpret_bytes (bytes : Nat) : Instruction :=
  let opcode := bytes &&& 0b1111111
  let func3 := (bytes &&& (0b111 <<< 11)) >>> 11
  match opcode with
  | 0b0110011 =>
    let data : R :=
      ⟨((bytes >>> 7) % 256) &&& 0b11111,
       ((bytes >>> 15) % 256) &&& 0b11111,
       ((bytes >>> 20) % 256) &&& 0b11111⟩
    match func3 + (bytes >>> 27) with
    | 0 => Instruction.ADD data
    | 1000 => Instruction.SUB data
    | 1 | 1001 => Instruction.SLL data
    | 10 | 1010 => Instruction.SLT data
    | 11 | 1011 => Instruction.SLTU data
    | 100 | 1100 => Instruction.XOR data
    | 101 => Instruction.SRL data
    | 1101 => Instruction.SRA data
    | 110 | 1110 => Instruction.OR data
    | 111 | 1111 => Instruction.AND data
    | _ => nop
  | 0b0010011 =>
    let data : I :=
      ⟨((bytes >>> 7) % 256) &&& 0b11111,
       ((bytes >>> 15) % 256) &&& 0b11111,
       ⟨bytes >>> 20⟩⟩
    match func3 with
    | 0 => Instruction.ADDI data
    | 10 => Instruction.SLTI data
    | 11 => Instruction.SLTUI data
    | 100 => Instruction.XORI data
    | 110 => Instruction.ORI data
    | 111 => Instruction.ANDI data
    | 1 => Instruction.SLLI data
    | 101 =>
      if bytes &&& 2 ^ 30 = 0 then Instruction.SRLI data
      else Instruction.SRAI data
    | _ => nop
  | 0b0100011 =>
    let data : S :=
      ⟨⟨(bytes >>> 7) &&& (0b11111 + (bytes >>> 24))⟩,
       ((bytes >>> 15) % 256) &&& 0b11111,
       ((bytes >>> 20) % 256) &&& 0b11111⟩
    match func3 with
    | 0 => Instruction.SB data
    | 1 => Instruction.SH data
    | 10 => Instruction.SW data
    | _ => nop
  | 0b0000011 =>
    let data : I :=
      ⟨((bytes >>> 7) % 256) &&& 0b11111,
       ((bytes >>> 15) % 256) &&& 0b11111,
       ⟨bytes >>> 20⟩⟩
    match func3 with
    | 0 => Instruction.LB data
    | 1 => Instruction.LH data
    | 10 => Instruction.LW data
    | 100 => Instruction.LBU data
    | 101 => Instruction.LHU data
    | _ => nop
  | 0b1100111 =>
    Instruction.JALR
      ⟨(bytes >>> 7) % 256,
       (bytes >>> 15) % 256,
       ⟨bytes >>> 20⟩⟩
  | 0b1100011 =>
    let data : B :=
      ⟨⟨(((bytes >>> 7) &&& (0b11111 + (bytes >>> 24))) &&& 0b111111111100)
          + ((bytes &&& 128) <<< (11 - 7))
          + (bytes &&& (2 ^ 31 >>> (31 - 12)))⟩,
       ((bytes >>> 15) % 256) &&& 0b11111,
       ((bytes >>> 20) % 256) &&& 0b11111⟩
    match func3 with
    | 0 => Instruction.BEQ data
    | 1 => Instruction.BNE data
    | 100 => Instruction.BLT data
    | 101 => Instruction.BGE data
    | 110 => Instruction.BLTU data
    | 111 => Instruction.BGEU data
    | _ => nop
  | 0b1101111 =>
    Instruction.JAL
      ⟨((bytes >>> 7) % 256) &&& 0b11111,
       ⟨((bytes >>> 20) &&& 0b1111111111)
          + (((bytes >>> 20) &&& 1) <<< 10)
          + (((bytes >>> 12) &&& 0b11111111) <<< 11)
          + (((bytes >>> 30) &&& 1) <<< 19)⟩⟩
  | 0b0110111 =>
    Instruction.LUI ⟨((bytes >>> 7) % 256) &&& 0b11111, ⟨bytes >>> 12⟩⟩
  | 0b0010111 =>
    Instruction.AUIPC ⟨((bytes >>> 7) % 256) &&& 0b11111, ⟨bytes >>> 12⟩⟩
  | _ => nop

/-- `ArchState::get_register` (vm.rs:399-404): reads of x0 yield 0; other
indices read backing slot `reg - 1`, panicking (`none`) past slot 30. -/
def ArchState.get_register (s : ArchState) (reg : Nat) : Option Nat :=
  if reg = 0 then some 0 else s.regs[reg - 1]?

/-- `ArchState::set_register` (vm.rs:406-413): writes to x0 are discarded;
other indices write backing slot `index - 1` via `get_mut`, silently doing
nothing when the slot does not exist (`List.set` is the identity out of
bounds, exactly like `get_mut` returning `None`). -/
def ArchState.set_register (s : ArchState) (index : Nat) (val : Nat) : ArchState :=
  if index = 0 then s else { s with regs := s.regs.set (index - 1) val }

/-- Rust `self.mem[i] = v`: panics (`none`) when `i` is out of bounds. -/
def ArchState.memSet (s : ArchState) (i : Nat) (v : Nat) : Option ArchState :=
  if i < s.mem.length then some { s with mem := s.mem.set i v } else none

/-- The body of `ArchState::apply` (vm.rs:419-728) before the trailing
unconditional `self.pc += 4`. -/
def ArchState.applyInner (s : ArchState) (inst : Instruction) : Option ArchState :=
  match inst with
  | Instruction.ADD data => do
    let a ← s.get_register data.rs1
    let b ← s.get_register data.rs2
    let v ← u32add a b
    pure (s.set_register data.rd v)
  | Instruction.SUB data => do
    let a ← s.get_register data.rs1
    let b ← s.get_register data.rs2
    let v ← u32sub a b
    pure (s.set_register data.rd v)
  | Instruction.XOR data => do
    let a ← s.get_register data.rs1
    let b ← s.get_register data.rs2
    pure (s.set_register data.rd (a ^^^ b))
  | Instruction.OR data => do
    let a ← s.get_register data.rs1
    let b ← s.get_register data.rs2
    pure (s.set_register data.rd (a ||| b))
  | Instruction.AND data => do
    let a ← s.get_register data.rs1
    let b ← s.get_register data.rs2
    pure (s.set_register data.rd (a &&& b))
  | Instruction.SLL data => do
    let a ← s.get_register data.rs1
    let b ← s.get_register data.rs2
    let v ← u32shl a b
    pure (s.set_register data.rd v)
  | Instruction.SRL data => do
    let a ← s.get_register data.rs1
    let b ← s.get_register data.rs2
    let v ← u32shr a b
    pure (s.set_register data.rd v)
  | Instruction.SRA data => do
    let a ← s.get_register data.rs1
    let b ← s.get_register data.rs2
    let v ← i32shr (transmute_to_signed a) b
    pure (s.set_register data.rd (transmute_to_unsigned v))
  | Instruction.SLT data => do
    let a ← s.get_register data.rs1
    let b ← s.get_register data.rs2
    pure (s.set_register data.rd
      (if transmute_to_signed a < transmute_to_signed b then 1 else 0))
  | Instruction.SLTU data => do
    let a ← s.get_register data.rs1
    let b ← s.get_register data.rs2
    pure (s.set_register data.rd (if a < b then 1 else 0))
  | Instruction.ADDI data => do
    let a ← s.get_register data.rs1
    let v ← i32chk (transmute_to_signed a + data.imm.sign_extend)
    pure (s.set_register data.rd (transmute_to_unsigned v))
  | Instruction.XORI data => do
    let a ← s.get_register data.rs1
    pure (s.set_register data.rd
      (transmute_to_unsigned (i32xor (transmute_to_signed a) data.imm.sign_extend)))
  | Instruction.ORI data => do
    let a ← s.get_register data.rs1
    pure (s.set_register data.rd
      (transmute_to_unsigned (i32or (transmute_to_signed a) data.imm.sign_extend)))
  | Instruction.ANDI data => do
    let a ← s.get_register data.rs1
    pure (s.set_register data.rd
      (transmute_to_unsigned (i32and (transmute_to_signed a) data.imm.sign_extend)))
  | Instruction.SLLI data => do
    let a ← s.get_register data.rs1
    let v ← u32shl a data.imm.val
    pure (s.set_register data.rd v)
  | Instruction.SRLI data => do
    -- Rust: `self.get_register(rs1) >> data.imm.val & 0b11111`, which by
    -- precedence is `(rs1 >> imm.val) & 0b11111` - the mask lands on the
    -- shifted RESULT, not on the shift amount.
    let a ← s.get_register data.rs1
    let v ← u32shr a data.imm.val
    pure (s.set_register data.rd (v &&& 0b11111))
  | Instruction.SRAI data => do
    -- Same precedence: `(signed(rs1) >> imm.val) & 0b11111`.
    let a ← s.get_register data.rs1
    let v ← i32shr (transmute_to_signed a) data.imm.val
    pure (s.set_register data.rd (transmute_to_unsigned (i32and v 0b11111)))
  | Instruction.SLTI data => do
    let a ← s.get_register data.rs1
    pure (s.set_register data.rd
      (if transmute_to_signed a < data.imm.sign_extend then 1 else 0))
  | Instruction.SLTUI data => do
    let a ← s.get_register data.rs1
    pure (s.set_register data.rd
      (if a < transmute_to_unsigned data.imm.sign_extend then 1 else 0))
  | Instruction.LBU data => do
    let a ← s.get_register data.rs1
    let byte ← s.mem[usizeWrapAddSigned a data.imm.sign_extend]?
    pure (s.set_register data.rd byte)
  | Instruction.LHU data => do
    let a ← s.get_register data.rs1
    let index := usizeWrapAddSigned a data.imm.sign_extend
    let b0 ← s.mem[index]?
    let b1 ← s.mem[index + 1]?
    pure (s.set_register data.rd ((b0 <<< 8) + b1))
  | Instruction.LB data => do
    let a ← s.get_register data.rs1
    let val ← s.mem[usizeWrapAddSigned a data.imm.sign_extend]?
    pure (s.set_register data.rd
      (val + if val &&& 0b10000000 = 128 then 0xFFFFFF00 else 0))
  | Instruction.LH data => do
    let a ← s.get_register data.rs1
    let index := usizeWrapAddSigned a data.imm.sign_extend
    let b0 ← s.mem[index]?
    let b1 ← s.mem[index + 1]?
    let val := (b0 <<< 8) + b1
    pure (s.set_register data.rd
      (val + if val &&& (1 <<< 15) = 1 <<< 15 then 0xFFFF0000 else 0))
  | Instruction.LW data => do
    let a ← s.get_register data.rs1
    let index := usizeWrapAddSigned a data.imm.sign_extend
    let b0 ← s.mem[index]?
    let b1 ← s.mem[index + 1]?
    let b2 ← s.mem[index + 2]?
    let b3 ← s.mem[index + 3]?
    pure (s.set_register data.rd ((b0 <<< 24) + (b1 <<< 16) + (b2 <<< 8) + b3))
  | Instruction.SB data => do
    let a ← s.get_register data.rs1
    let index := u32WrapAddSigned a data.imm.sign_extend
    let b ← s.get_register data.rs2
    s.memSet index (b % 256)
  | Instruction.SH data => do
    let a ← s.get_register data.rs1
    let index := u32WrapAddSigned a data.imm.sign_extend
    let b0 ← s.get_register data.rs2
    let s0 ← s.memSet index ((b0 >>> 8) % 256)
    let b1 ← s0.get_register data.rs2
    s0.memSet (index + 1) (b1 % 256)
  | Instruction.SW data => do
    let a ← s.get_register data.rs1
    let index := u32WrapAddSigned a data.imm.sign_extend
    let b0 ← s.get_register data.rs2
    let s0 ← s.memSet index ((b0 >>> 24) % 256)
    let b1 ← s0.get_register data.rs2
    let s1 ← s0.memSet (index + 1) ((b1 >>> 16) % 256)
    let b2 ← s1.get_register data.rs2
    let s2 ← s1.memSet (index + 2) ((b2 >>> 8) % 256)
    let b3 ← s2.get_register data.rs2
    s2.memSet (index + 3) (b3 % 256)
  | Instruction.BEQ data => do
    let a ← s.get_register data.rs1
    let b ← s.get_register data.rs2
    if a = b then
      (i32chk (data.imm.sign_extend * 2 - 4)).map fun d => { s with pc := s.pc + d }
    else
      pure s
  | Instruction.BNE data => do
    let a ← s.get_register data.rs1
    let b ← s.get_register data.rs2
    if a ≠ b then
      (i32chk (data.imm.sign_extend * 2 - 4)).map fun d => { s with pc := s.pc + d }
    else
      pure s
  | Instruction.BLT data => do
    let a ← s.get_register data.rs1
    let b ← s.get_register data.rs2
    if transmute_to_signed a < transmute_to_signed b then
      (i32chk (data.imm.sign_extend * 2 - 4)).map fun d => { s with pc := s.pc + d }
    else
      pure s
  | Instruction.BLTU data => do
    let a ← s.get_register data.rs1
    let b ← s.get_register data.rs2
    if a < b then
      (i32chk (data.imm.sign_extend * 2 - 4)).map fun d => { s with pc := s.pc + d }
    else
      pure s
  | Instruction.BGE data => do
    let a ← s.get_register data.rs1
    let b ← s.get_register data.rs2
    if transmute_to_signed b ≤ transmute_to_signed a then
      (i32chk (data.imm.sign_extend * 2 - 4)).map fun d => { s with pc := s.pc + d }
    else
      pure s
  | Instruction.BGEU data => do
    let a ← s.get_register data.rs1
    let b ← s.get_register data.rs2
    if b ≤ a then
      (i32chk (data.imm.sign_extend * 2 - 4)).map fun d => { s with pc := s.pc + d }
    else
      pure s
  | Instruction.JAL data => do
    let link ← u32add (pcAsU32 s.pc) 4
    -- `data.imm.sign_extend() as i64 * 2 - 4`: the widening happens before
    -- the multiplication, so this arithmetic is i64.
    pure { s.set_register data.rd link with
           pc := s.pc + data.imm.sign_extend * 2 - 4 }
  | Instruction.JALR data => do
    let link ← u32add (pcAsU32 s.pc) 4
    let s0 := s.set_register data.rd link
    -- Rust reads rs1 AFTER the link register has been written.
    let a ← s0.get_register data.rs1
    pure { s0 with
           pc := ((satAddU32 a data.imm.sign_extend &&& 0xFFFE : Nat) : Int) - 4 }
  | Instruction.LUI data => do
    pure (s.set_register data.rd ((data.imm.val <<< 12) % 4294967296))
  | Instruction.AUIPC data => do
    let v ← u32add (pcAsU32 s.pc) ((data.imm.val <<< 12) % 4294967296)
    pure (s.set_register data.rd v)
  | Instruction.ECALL _ => none
  | Instruction.EBREAK _ => none

/-- `ArchState::apply` (vm.rs:419-730): the per-variant effect followed by
the unconditional trailing `self.pc += 4`. -/
def ArchState.apply (s : ArchState) (inst : Instruction) : Option ArchState :=
  (s.applyInner inst).map fun t => { t with pc := t.pc + 4 }

/-- `ArchState::tick` (vm.rs:732-739): fetch four bytes at `pc as usize`
(big-endian), decode, apply. Each memory index panics (`none`) when out of
bounds. -/
def ArchState.tick (s : ArchState) : Option ArchState := do
  let b0 ← s.mem[pcAsUsize s.pc]?
  let b1 ← s.mem[pcAsUsize s.pc + 1]?
  let b2 ← s.mem[pcAsUsize s.pc + 2]?
  let b3 ← s.mem[pcAsUsize s.pc + 3]?
  s.apply (interpret_bytes ((b0 <<< 24) + (b1 <<< 16) + (b2 <<< 8) + b3))

end RiscV

namespace RiscV

/-- Projection fact used below: `set_register` never touches memory. -/
theorem set_register_mem (s : ArchState) (i v : Nat) :
    (s.set_register i v).mem = s.mem := by
  unfold ArchState.set_register
  split <;> rfl

/-- Projection fact used below: `set_register` never touches the pc. -/
theorem set_register_pc (s : ArchState) (i v : Nat) :
    (s.set_register i v).pc = s.pc := by
  unfold ArchState.set_register
  split <;> rfl

/-- C1: the claim states `sign_extend` replicates the sign bit, so that a
12-bit field `0x800` maps to -2048, `0xFFF` to -1, and a 20-bit field
`1 <<< 19` to `-(1 <<< 19)`. The code's sign test `val & 1 << 11 == 1`
compares the masked bit against 1 and is never true, so `sign_extend` is
the identity on every raw field value: the boundary inputs evaluate to
+2048, +4095 and +524288 instead of the claimed negative values. -/
theorem C1_sign_extend_is_identity :
    SmallImmediate.sign_extend ⟨0⟩ = 0 ∧
    SmallImmediate.sign_extend ⟨2048⟩ = 2048 ∧
    SmallImmediate.sign_extend ⟨4095⟩ = 4095 ∧
    BigImmediate.sign_extend ⟨524288⟩ = 524288 := by
  decide

/-- C2: the claim states func3 is bits [12:14] and that the R-type table
maps (func3=000, bit30=1) to SUB and (func3=111) to AND. The code takes
func3 from bits [11:13] and dispatches on `func3 + (bytes >> 27)` against
decimal match literals (`0010` is ten, `0111` is one hundred eleven), so
of the reachable sums 0..38 only 0/1/10/11 select an instruction: the
canonical SUB word `0x40000033` (funct7=0100000, func3=000, sum 8) and the
canonical AND word `0x00007033` (func3 read as 6, sum 6) both decode to
the nop `ADDI x0, x0, 0`. -/
theorem C2_rtype_dispatch_wrong :
    interpret_bytes 0x40000033 = Instruction.ADDI ⟨0, 0, ⟨0⟩⟩ ∧
    interpret_bytes 0x00007033 = Instruction.ADDI ⟨0, 0, ⟨0⟩⟩ := by
  decide

/-- C3: the claim states an out-of-bounds fetch/load/store makes `tick`
return a MemoryOutOfBounds fault result without panicking. `tick` indexes
the memory vector directly and panics (modelled as `none`) on a state
whose pc is at memory capacity; no fault value exists in `vm.rs`. -/
theorem C3_tick_panics_on_oob_fetch :
    ArchState.tick ⟨List.replicate 31 0, 0, []⟩ = none := by
  decide

/-- C4: register 0 is hard-wired to zero. Writes to index 0 are discarded
(the state is unchanged), reads of index 0 give 0 in every state, reads of
r in 1..=31 return the value last written to backing slot r-1, and any
successful `apply` yields a state still reading 0 at index 0. -/
theorem C4_x0_hardwired :
    (∀ (s : ArchState) (v : Nat), s.set_register 0 v = s) ∧
    (∀ s : ArchState, s.get_register 0 = some 0) ∧
    (∀ (s : ArchState) (r v : Nat), 1 ≤ r → r ≤ 31 → s.regs.length = 31 →
      (s.set_register r v).get_register r = some v) ∧
    (∀ (inst : Instruction) (s t : ArchState), s.apply inst = some t →
      t.get_register 0 = some 0) := by
  refine ⟨fun s v => ?_, fun s => rfl, fun s r v h1 h31 hlen => ?_,
    fun inst s t _ => rfl⟩
  · simp [ArchState.set_register]
  · have hr : r ≠ 0 := by omega
    simp only [ArchState.set_register, ArchState.get_register, if_neg hr]
    exact List.getElem?_set_eq_of_lt v (by rw [hlen]; omega)

/-- Witness for C4 at concrete inputs. -/
theorem C4_x0_hardwired_witness :
    ((⟨List.replicate 31 0, 0, []⟩ : ArchState).set_register 0 7
        = ⟨List.replicate 31 0, 0, []⟩) ∧
    ((⟨List.replicate 31 0, 0, []⟩ : ArchState).get_register 0 = some 0) ∧
    (((⟨List.replicate 31 0, 0, []⟩ : ArchState).set_register 5 9).get_register 5
        = some 9) ∧
    ((⟨List.replicate 31 0, 4, []⟩ : ArchState).get_register 0 = some 0) :=
  ⟨C4_x0_hardwired.1 ⟨List.replicate 31 0, 0, []⟩ 7,
   C4_x0_hardwired.2.1 ⟨List.replicate 31 0, 0, []⟩,
   C4_x0_hardwired.2.2.1 ⟨List.replicate 31 0, 0, []⟩ 5 9 (by decide) (by decide)
     (by decide),
   C4_x0_hardwired.2.2.2 (Instruction.ADD ⟨0, 0, 0⟩) ⟨List.replicate 31 0, 0, []⟩
     ⟨List.replicate 31 0, 4, []⟩ (by decide)⟩

end RiscV

namespace RiscV

/-- C5: the word `0b1_00001_000_00001_0010011` (= 0x00108093) decodes to
`ADDI x1, x1, 1`, and from any state with x1 = 0 and that word stored
big-endian at a valid pc, one `tick` succeeds, leaves x1 = 1 and advances
pc by exactly 4. -/
theorem C5_addi_decode_execute_roundtrip :
    interpret_bytes 0x00108093 = Instruction.ADDI ⟨1, 1, ⟨1⟩⟩ ∧
    (∀ s : ArchState, 0 ≤ s.pc → s.pc < 18446744073709551616 →
      s.mem[s.pc.toNat]? = some 0x00 →
      s.mem[s.pc.toNat + 1]? = some 0x10 →
      s.mem[s.pc.toNat + 2]? = some 0x80 →
      s.mem[s.pc.toNat + 3]? = some 0x93 →
      s.get_register 1 = some 0 →
      ∃ t, s.tick = some t ∧ t.get_register 1 = some 1 ∧ t.pc = s.pc + 4) := by
  constructor
  · decide
  · intro s hpc0 hpc1 h0 h1 h2 h3 hx1
    have hcast : pcAsUsize s.pc = s.pc.toNat := by
      unfold pcAsUsize
      rw [Int.emod_eq_of_lt hpc0 hpc1]
    have hx1' : s.regs[0]? = some 0 := by
      simpa [ArchState.get_register] using hx1
    have hlen : 0 < s.regs.length := (List.getElem?_eq_some.mp hx1').1
    have hdec :
        interpret_bytes ((0x00 <<< 24) + (0x10 <<< 16) + (0x80 <<< 8) + 0x93)
          = Instruction.ADDI ⟨1, 1, ⟨1⟩⟩ := by decide
    have hchk : i32chk (transmute_to_signed 0 + SmallImmediate.sign_extend ⟨1⟩)
        = some 1 := by decide
    have htu : transmute_to_unsigned 1 = 1 := by decide
    refine ⟨{ s with regs := s.regs.set 0 1, pc := s.pc + 4 }, ?_, ?_, rfl⟩
    · simp only [ArchState.tick, hcast, h0, h1, h2, h3, Option.bind_eq_bind,
        Option.some_bind, hdec, ArchState.apply, ArchState.applyInner, hx1,
        ArchState.set_register]
      norm_num
      simp [hchk, htu]
    · norm_num [ArchState.get_register]
      exact List.getElem?_set_eq_of_lt 1 hlen

end RiscV

namespace RiscV

/-- Witness for C5 at the concrete state pc = 0, x1 = 0, memory holding
exactly the four bytes of the ADDI word. -/
theorem C5_addi_decode_execute_roundtrip_witness :
    ∃ t, (⟨List.replicate 31 0, 0, [0x00, 0x10, 0x80, 0x93]⟩ : ArchState).tick
        = some t ∧ t.get_register 1 = some 1 ∧
        t.pc = (⟨List.replicate 31 0, 0, [0x00, 0x10, 0x80, 0x93]⟩ : ArchState).pc + 4 :=
  C5_addi_decode_execute_roundtrip.2 ⟨List.replicate 31 0, 0, [0x00, 0x10, 0x80, 0x93]⟩
    (by decide) (by decide) (by decide) (by decide) (by decide) (by decide) (by decide)

/-- C6 counterexample: the claim says JALR sets the final pc to
`(rs1 + sign_extend(imm)) & ~1`, altering no bit but the lowest. With
x1 = 0x10000, pc = 0 and `JALR rd=0, rs1=1, imm=0`, the claim demands a
final pc of 0x10000; the code's `& 0xFFFE` mask clears every bit above
bit 15, producing pc = 0. -/
theorem C6_jalr_counterexample :
    ¬ ((ArchState.apply ⟨65536 :: List.replicate 30 0, 0, []⟩
          (Instruction.JALR ⟨0, 1, ⟨0⟩⟩)).map ArchState.pc = some 65536) := by
  decide

/-- C6 amended: JALR writes `(pc as u32) + 4` into rd, then sets the final
pc (after the trailing +4 is cancelled) to
`(rs1 saturating_add sign_extend(imm)) & 0xFFFE` - the least-significant
bit is cleared, but so is every bit above bit 15, and rs1 is read after
the link write, so `rd = rs1` uses the freshly written link value. -/
theorem C6_jalr_pc_truncated (s : ArchState) (d : I) (link a : Nat)
    (hlink : u32add (pcAsU32 s.pc) 4 = some link)
    (ha : (s.set_register d.rd link).get_register d.rs1 = some a) :
    ∃ t, s.apply (Instruction.JALR d) = some t ∧
      t.regs = (s.set_register d.rd link).regs ∧
      t.mem = s.mem ∧
      t.pc = ((satAddU32 a d.imm.sign_extend &&& 0xFFFE : Nat) : Int) := by
  have hpc : ((satAddU32 a d.imm.sign_extend &&& 0xFFFE : Nat) : Int) - 4 + 4
      = ((satAddU32 a d.imm.sign_extend &&& 0xFFFE : Nat) : Int) := Int.sub_add_cancel _ 4
  refine ⟨{ s.set_register d.rd link with
            pc := ((satAddU32 a d.imm.sign_extend &&& 0xFFFE : Nat) : Int) },
    ?_, rfl, set_register_mem s d.rd link, rfl⟩
  simp only [ArchState.apply, ArchState.applyInner, hlink, Option.bind_eq_bind,
    Option.some_bind, ha]
  simp [hpc]

/-- Witness for C6 at concrete inputs (the repo's own JALR test vector:
x0-based jump with immediate 8 from pc = 0). -/
theorem C6_jalr_pc_truncated_witness :
    ∃ t, (⟨List.replicate 31 0, 0, []⟩ : ArchState).apply
        (Instruction.JALR ⟨1, 0, ⟨8⟩⟩) = some t ∧
      t.regs = ((⟨List.replicate 31 0, 0, []⟩ : ArchState).set_register 1 4).regs ∧
      t.mem = (⟨List.replicate 31 0, 0, []⟩ : ArchState).mem ∧
      t.pc = ((satAddU32 0 (SmallImmediate.sign_extend ⟨8⟩) &&& 0xFFFE : Nat) : Int) :=
  C6_jalr_pc_truncated ⟨List.replicate 31 0, 0, []⟩ ⟨1, 0, ⟨8⟩⟩ 4 0
    (by decide) (by decide)

/-- C7: the claim says a store word's immediate is reassembled as
`(bits[25:31] << 5) | bits[7:11]`, which for the word 0x02000023 (an SB
with only bit 25 set) gives 32. By Rust precedence the code computes
`(bytes >> 7) & (0b11111 + (bytes >> 24))`, which decodes this word with
immediate 0. -/
theorem C7_store_imm_misassembled :
    interpret_bytes 0x02000023 = Instruction.SB ⟨⟨0⟩, 0, 0⟩ ∧
    ((0x02000023 >>> 25) <<< 5) ||| ((0x02000023 >>> 7) &&& 0b11111) = 32 := by
  decide

/-- C8: the claim says shift-immediates use `imm & 0b11111` as the shift
amount and write the full 32-bit shifted result. The code instead shifts
by the full immediate field and masks the RESULT with 0b11111: SRLI with
shamt 4 on x2 = 0x1000 writes 0 (the claim demands 0x100), and SRAI with
the standard-encoded field 0x404 (selector bit + shamt 4) shifts by 1028
and panics. -/
theorem C8_shift_imm_masks_result :
    ((ArchState.apply ⟨0 :: 4096 :: List.replicate 29 0, 0, []⟩
        (Instruction.SRLI ⟨1, 2, ⟨4⟩⟩)).bind (fun t => t.get_register 1))
      = some 0 ∧
    (4096 >>> 4 : Nat) = 256 ∧
    ArchState.apply ⟨0 :: 4096 :: List.replicate 29 0, 0, []⟩
        (Instruction.SRAI ⟨1, 2, ⟨1028⟩⟩) = none := by
  decide

/-- C10: writes to any register index ≥ 32 are silent no-ops (the backing
`get_mut` fails and nothing is written, no panic), and such indices are
reachable: the JALR decode arm takes rd and rs1 as unmasked bytes, so word
0x7FE7 decodes to JALR with rd = 255. -/
theorem C10_oob_set_register_noop :
    (∀ (s : ArchState) (index v : Nat), s.regs.length = 31 → 32 ≤ index →
      s.set_register index v = s) ∧
    interpret_bytes 0x7FE7 = Instruction.JALR ⟨255, 0, ⟨0⟩⟩ := by
  constructor
  · intro s index v hlen hidx
    have h0 : index ≠ 0 := by omega
    simp only [ArchState.set_register, if_neg h0]
    rw [List.set_eq_of_length_le (by omega)]
  · decide

/-- Witness for C10: writing register 255 on a fresh state changes nothing. -/
theorem C10_oob_set_register_noop_witness :
    (⟨List.replicate 31 0, 0, []⟩ : ArchState).set_register 255 9
      = ⟨List.replicate 31 0, 0, []⟩ :=
  C10_oob_set_register_noop.1 ⟨List.replicate 31 0, 0, []⟩ 255 9
    (by decide) (by decide)

end RiscV
